import Mathlib

/-!
# Verification of the content-dashboard core of `src/frontend/src/App.jsx`

Shallow embedding of the state and event handlers of the single React
component `App`. The component state consists of four `useState` cells:
`isSystemRunning : Bool`, `pendingPreviews : List Preview`,
`channels : List Channel` and `systemStats : SystemStats`. The handlers
`toggleSystem`, `approveContent` and `rejectContent` are pure state
updates; each is embedded as a function from the component state to the
new component state paired with the handler's return value (the source
handlers end without a `return` statement, which in JavaScript yields
`undefined`; that absent return value is embedded as `none`).

Monetary amounts appear in the source as decimal literals with exactly
two fraction digits (for example `245.50`); they are embedded as integer
cent counts (`24550`) so that sums are exact.
-/

/-- A pending content preview, with exactly the fields of the objects
placed into `pendingPreviews` by the `useEffect` at `App.jsx:102-133`. -/
structure Preview where
  id : String
  channelId : String
  title : String
  content : String
  scheduledTime : String
  timeLeft : String
  mediaType : String
deriving Repr, DecidableEq

/-- A channel record, with exactly the fields of the objects in the
`channels` state array at `App.jsx:34-90`. Revenue is in cents. -/
structure Channel where
  id : String
  name : String
  platform : String
  status : String
  followers : Nat
  todayViews : Nat
  revenueCents : Nat
  contentGenerated : Nat
  publishedToday : Nat
deriving Repr, DecidableEq

/-- The `systemStats` state object at `App.jsx:92-100`. Revenue is in
cents. -/
structure SystemStats where
  totalViews : Nat
  totalRevenueCents : Nat
  totalFollowers : Nat
  contentGenerated : Nat
  publishedToday : Nat
  pendingPreviews : Nat
  scheduledContent : Nat
deriving Repr, DecidableEq

/-- The full component state of `App`: the four `useState` cells. -/
structure AppState where
  isSystemRunning : Bool
  pendingPreviews : List Preview
  channels : List Channel
  systemStats : SystemStats
deriving Repr, DecidableEq

/-- Modelled from the spec: the error kinds of §7 that lifecycle and
queue operations may return (`InvalidState`, `NotFound`). The source
handlers at `App.jsx:139-149` have no error channel at all — their
bodies are a total list filter plus a `console.log` — so in this
development no operation ever produces a `ReviewError`; the type exists
so that the absence of an error can be stated. -/
inductive ReviewError where
  | invalidState
  | notFound
deriving Repr, DecidableEq

/-- The initial `channels` array (`App.jsx:34-90`), revenue in cents. -/
def initialChannels : List Channel :=
  [ { id := "horror_stories", name := "قصص الرعب", platform := "TikTok",
      status := "active", followers := 15420, todayViews := 8750,
      revenueCents := 24550, contentGenerated := 12, publishedToday := 3 },
    { id := "islamic_stories", name := "القصص الإسلامية", platform := "TikTok",
      status := "active", followers := 22100, todayViews := 12300,
      revenueCents := 38075, contentGenerated := 15, publishedToday := 4 },
    { id := "home_design", name := "تصميم المنازل والعقارات", platform := "YouTube",
      status := "active", followers := 8900, todayViews := 5600,
      revenueCents := 19525, contentGenerated := 8, publishedToday := 2 },
    { id := "motivation", name := "التحفيز والاقتباسات", platform := "TikTok",
      status := "active", followers := 31500, todayViews := 18900,
      revenueCents := 52080, contentGenerated := 20, publishedToday := 5 },
    { id := "ai_chef", name := "AI Chef", platform := "YouTube",
      status := "active", followers := 12750, todayViews := 9200,
      revenueCents := 31040, contentGenerated := 10, publishedToday := 3 } ]

/-- The initial `systemStats` object (`App.jsx:92-100`), revenue in
cents. -/
def initialSystemStats : SystemStats :=
  { totalViews := 54750, totalRevenueCents := 165270, totalFollowers := 90670,
    contentGenerated := 65, publishedToday := 17, pendingPreviews := 8,
    scheduledContent := 25 }

/-- The three previews loaded by the mount `useEffect`
(`App.jsx:104-132`). -/
def loadedPendingPreviews : List Preview :=
  [ { id := "preview_1", channelId := "horror_stories",
      title := "قصة الدمية المسكونة",
      content := "في منزل قديم بالريف، وجدت سارة دمية قديمة في العلية...",
      scheduledTime := "22:00", timeLeft := "45 دقيقة", mediaType := "video" },
    { id := "preview_2", channelId := "ai_chef",
      title := "وصفة المعكرونة الإيطالية",
      content := "اليوم سنتعلم طريقة عمل المعكرونة الإيطالية الأصلية...",
      scheduledTime := "22:15", timeLeft := "60 دقيقة", mediaType := "video" },
    { id := "preview_3", channelId := "motivation",
      title := "اقتباس عن النجاح",
      content := "النجاح ليس نهاية الطريق، والفشل ليس نهاية العالم...",
      scheduledTime := "22:30", timeLeft := "75 دقيقة", mediaType := "image" } ]

/-- The component state after mount and the one-shot `useEffect` have
run: `isSystemRunning` starts `true` (`App.jsx:32`), the pending list
holds the three loaded previews, channels and stats their initial
values. This is the first quiescent state a user can act on. -/
def initialAppState : AppState :=
  { isSystemRunning := true, pendingPreviews := loadedPendingPreviews,
    channels := initialChannels, systemStats := initialSystemStats }

/-- `toggleSystem` (`App.jsx:135-137`): flips `isSystemRunning` via
`setIsSystemRunning(!isSystemRunning)`. The handler body is a block with
no `return`, so its JavaScript return value is `undefined`, embedded as
`none : Option Bool`. -/
def toggleSystem (s : AppState) : AppState × Option Bool :=
  ({ s with isSystemRunning := !s.isSystemRunning }, none)

/-- `approveContent` (`App.jsx:139-143`): removes every pending preview
whose `id` equals `contentId` (`prev.filter(item => item.id !== contentId)`)
and logs. No other state cell is touched; nothing is returned and
nothing can throw, embedded as the error slot `none`. -/
def approveContent (contentId : String) (s : AppState) :
    AppState × Option ReviewError :=
  ({ s with pendingPreviews :=
      s.pendingPreviews.filter (fun item => item.id != contentId) }, none)

/-- `rejectContent` (`App.jsx:145-149`): identical state update to
`approveContent` — the same filter on `pendingPreviews` — differing only
in the logged text. -/
def rejectContent (contentId : String) (s : AppState) :
    AppState × Option ReviewError :=
  ({ s with pendingPreviews :=
      s.pendingPreviews.filter (fun item => item.id != contentId) }, none)

/-- One user interaction on the component: clicking the system toggle,
an approve button, or a reject button (with an arbitrary id). -/
inductive Step : AppState → AppState → Prop where
  | toggle (s : AppState) : Step s (toggleSystem s).1
  | approve (id : String) (s : AppState) : Step s (approveContent id s).1
  | reject (id : String) (s : AppState) : Step s (rejectContent id s).1

/-- The states the component can quiesce in: the post-mount state and
anything reachable from it by user interactions. -/
inductive Reachable : AppState → Prop where
  | base : Reachable initialAppState
  | step {s t : AppState} : Reachable s → Step s t → Reachable t

/-- Modelled from the spec: §4.3 Review Window Gate, absent from the
source (the UI only displays the window "21:00 - 22:00" as text at
`App.jsx:270` and `App.jsx:372`). Time is minutes since midnight; the
daily review window is 21:00 (minute 1260) inclusive to 22:00 (minute
1320) exclusive. -/
def isReviewOpen (t : Nat) : Bool :=
  decide (1260 ≤ t ∧ t < 1320)

/-- Modelled from the spec: §4.3 Review Window Gate publish boundary,
absent from the source (the UI only displays "after 22:00" as text at
`App.jsx:274`). The boundary instant 22:00 (minute 1320) is inclusive. -/
def isPastPublishBoundary (t : Nat) : Bool :=
  decide (1320 ≤ t)

/-- Sum of `todayViews` over a channel list (the recomputation of
`systemStats.totalViews` from raw channel state). -/
def sumViews (cs : List Channel) : Nat :=
  (cs.map (fun c => c.todayViews)).sum

/-- Sum of `revenueCents` over a channel list (the recomputation of
`systemStats.totalRevenue` from raw channel state, in cents). -/
def sumRevenueCents (cs : List Channel) : Nat :=
  (cs.map (fun c => c.revenueCents)).sum

/-- Sum of `followers` over a channel list. -/
def sumFollowers (cs : List Channel) : Nat :=
  (cs.map (fun c => c.followers)).sum

/-- Sum of `contentGenerated` over a channel list. -/
def sumGenerated (cs : List Channel) : Nat :=
  (cs.map (fun c => c.contentGenerated)).sum

/-- Sum of `publishedToday` over a channel list. -/
def sumPublished (cs : List Channel) : Nat :=
  (cs.map (fun c => c.publishedToday)).sum

/-- The pending previews belonging to one channel (the per-channel
filtered view, as in `channels.find` usage at `App.jsx:394`). -/
def pendingOfChannel (cid : String) (ps : List Preview) : List Preview :=
  ps.filter (fun item => item.channelId == cid)

/-- Strict lexicographic order on character lists, used to compare the
`"HH:MM"` scheduled-time strings (lexicographic order on zero-padded
24-hour times is chronological order). -/
def charListLt : List Char → List Char → Bool
  | _, [] => false
  | [], _ :: _ => true
  | a :: as, b :: bs => if a < b then true else if b < a then false else charListLt as bs

/-- Strict lexicographic order on strings via their character lists. -/
def strLtb (a b : String) : Bool :=
  charListLt a.data b.data

/-- The display order required of the pending list: strictly earlier
scheduled-publish time, or equal times with the identifier as the
tie-break. (The source items carry no generation timestamp, so that
intermediate tie-break has no counterpart and ties fall through to the
identifier.) -/
def previewBefore (a b : Preview) : Bool :=
  strLtb a.scheduledTime b.scheduledTime ||
    (a.scheduledTime == b.scheduledTime && strLtb a.id b.id)

/-! ## Helper lemmas -/

/-- Every reachable state keeps the initial channels and stats
unchanged (no handler writes those cells), and its pending list is a
sublist of the loaded one (the only writes are filters). -/
theorem reachable_invariant {s : AppState} (h : Reachable s) :
    s.channels = initialChannels ∧ s.systemStats = initialSystemStats ∧
      s.pendingPreviews.Sublist loadedPendingPreviews := by
  induction h with
  | base => exact ⟨rfl, rfl, List.Sublist.refl _⟩
  | step hr hstep ih =>
    cases hstep with
    | toggle s => exact ⟨ih.1, ih.2.1, ih.2.2⟩
    | approve id s => exact ⟨ih.1, ih.2.1, (List.filter_sublist _).trans ih.2.2⟩
    | reject id s => exact ⟨ih.1, ih.2.1, (List.filter_sublist _).trans ih.2.2⟩

/-- When the ids in a list are pairwise distinct and `a` is among them,
filtering `a` out splits the list around the unique matching element:
everything before and after it survives in order. -/
theorem filter_out_unique_id (a : String) (l : List Preview)
    (hp : l.Pairwise (fun x y => x.id ≠ y.id))
    (hmem : a ∈ l.map (fun x => x.id)) :
    ∃ l₁ item l₂, l = l₁ ++ item :: l₂ ∧ item.id = a ∧
      l.filter (fun x => x.id != a) = l₁ ++ l₂ := by
  induction l with
  | nil => simp at hmem
  | cons x t ih =>
    rcases List.pairwise_cons.mp hp with ⟨hhead, htail⟩
    by_cases hx : x.id = a
    · refine ⟨[], x, t, rfl, hx, ?_⟩
      have ht : t.filter (fun y => y.id != a) = t :=
        List.filter_eq_self.mpr fun y hy => by
          have hne : x.id ≠ y.id := hhead y hy
          rw [hx] at hne
          simp only [bne_iff_ne, ne_eq]
          exact fun hya => hne (hya ▸ rfl)
      have hxa : (x.id != a) = false := by simp [hx]
      simp [List.filter_cons, hxa, ht]
    · have hmem' : a ∈ t.map (fun x => x.id) := by
        simp only [List.map_cons, List.mem_cons] at hmem
        rcases hmem with h | h
        · exact absurd h.symm hx
        · exact h
      rcases ih htail hmem' with ⟨l₁, item, l₂, hteq, hita, hfil⟩
      refine ⟨x :: l₁, item, l₂, by rw [hteq]; simp, hita, ?_⟩
      have hxa : (x.id != a) = true := by simp [bne_iff_ne]; exact hx
      simp [List.filter_cons, hxa, hfil]

/-- Filtering by the same id predicate twice is the same as filtering
once. -/
theorem filter_id_ne_idem (a : String) (l : List Preview) :
    (l.filter (fun x => x.id != a)).filter (fun x => x.id != a) =
      l.filter (fun x => x.id != a) := by
  rw [List.filter_filter]
  simp

/-! ## Claims -/

/-- C1 (counterexample): in the code, `approveContent "preview_1"` on the
initial state followed by `rejectContent "preview_1"` does NOT fail with
an `InvalidState` error — the second handler signals nothing (its return
slot is `none`, never `some ReviewError.invalidState`), refuting the
claimed error behaviour; the state is indeed left unchanged. -/
theorem C1_counterexample :
    (rejectContent "preview_1" (approveContent "preview_1" initialAppState).1).2 = none ∧
    (rejectContent "preview_1" (approveContent "preview_1" initialAppState).1).2 ≠
      some ReviewError.invalidState ∧
    (rejectContent "preview_1" (approveContent "preview_1" initialAppState).1).1 =
      (approveContent "preview_1" initialAppState).1 := by
  refine ⟨rfl, by decide, ?_⟩
  decide

/-- C1 (amended): for every id and state, `rejectContent` after
`approveContent` of the same id is a silent no-op: it signals no error
(there is no `InvalidState` channel in the code) and returns the state
produced by the approval completely unchanged. -/
theorem C1_reject_after_approve_silent_noop (id : String) (s : AppState) :
    rejectContent id (approveContent id s).1 = ((approveContent id s).1, none) := by
  unfold rejectContent approveContent
  simp only [List.filter_filter, Bool.and_self]

/-- C2 (counterexample): at the initial quiescent point the maintained
`systemStats.pendingPreviews` counter is 8 while only 3 items are
pending, so recomputing `SystemStats` from raw state does not reproduce
the maintained value. -/
theorem C2_counterexample :
    initialAppState.systemStats.pendingPreviews = 8 ∧
    initialAppState.pendingPreviews.length = 3 ∧
    initialAppState.systemStats.pendingPreviews ≠ initialAppState.pendingPreviews.length := by
  decide

/-- C2 (amended): at every quiescent point the five aggregate fields
`totalViews`, `totalRevenue` (in cents), `totalFollowers`,
`contentGenerated` and `publishedToday` equal the sums over all
channels, but the maintained `pendingPreviews` counter never equals the
number of items currently pending review (it stays 8 while at most 3
items are ever pending). -/
theorem C2_stats_projection (s : AppState) (h : Reachable s) :
    sumViews s.channels = s.systemStats.totalViews ∧
    sumRevenueCents s.channels = s.systemStats.totalRevenueCents ∧
    sumFollowers s.channels = s.systemStats.totalFollowers ∧
    sumGenerated s.channels = s.systemStats.contentGenerated ∧
    sumPublished s.channels = s.systemStats.publishedToday ∧
    s.systemStats.pendingPreviews ≠ s.pendingPreviews.length := by
  obtain ⟨hc, hst, hsub⟩ := reachable_invariant h
  rw [hc, hst]
  refine ⟨by decide, by decide, by decide, by decide, by decide, ?_⟩
  have hlen : s.pendingPreviews.length ≤ loadedPendingPreviews.length :=
    hsub.length_le
  have h3 : loadedPendingPreviews.length = 3 := rfl
  show 8 ≠ s.pendingPreviews.length
  omega

/-- C2 (witness): the amended projection property instantiated at the
initial quiescent state. -/
theorem C2_stats_projection_witness :
    sumViews initialAppState.channels = initialAppState.systemStats.totalViews ∧
    sumRevenueCents initialAppState.channels = initialAppState.systemStats.totalRevenueCents ∧
    sumFollowers initialAppState.channels = initialAppState.systemStats.totalFollowers ∧
    sumGenerated initialAppState.channels = initialAppState.systemStats.contentGenerated ∧
    sumPublished initialAppState.channels = initialAppState.systemStats.publishedToday ∧
    initialAppState.systemStats.pendingPreviews ≠ initialAppState.pendingPreviews.length :=
  C2_stats_projection initialAppState Reachable.base

/-- C3 (counterexample): channel `horror_stories` has `publishedToday = 3`
while only one content item of that channel exists in the store at all;
since any set of its Published items is a subset of its items, its
Published count (at most 1) cannot equal the counter 3. -/
theorem C3_counterexample :
    (initialChannels.filter (fun c => c.id == "horror_stories")).map
      (fun c => c.publishedToday) = [3] ∧
    (pendingOfChannel "horror_stories" initialAppState.pendingPreviews).length = 1 := by
  decide

/-- C3 (amended): for every channel at every quiescent point, the
channel's `publishedToday` counter strictly exceeds the total number of
that channel's content items in the store, so it cannot equal the count
of its Published items (a subset of those items); the counters are
hardcoded, not derived from item state. -/
theorem C3_published_counter_exceeds_items (s : AppState) (h : Reachable s)
    (c : Channel) (hc : c ∈ s.channels) :
    (pendingOfChannel c.id s.pendingPreviews).length < c.publishedToday := by
  obtain ⟨hch, _, hsub⟩ := reachable_invariant h
  rw [hch] at hc
  have hs : (pendingOfChannel c.id s.pendingPreviews).length ≤
      (pendingOfChannel c.id loadedPendingPreviews).length := by
    unfold pendingOfChannel
    exact (hsub.filter _).length_le
  have hbase : ∀ c₀ ∈ initialChannels,
      (pendingOfChannel c₀.id loadedPendingPreviews).length < c₀.publishedToday := by
    decide
  exact Nat.lt_of_le_of_lt hs (hbase c hc)

/-- C3 (witness): the amended bound instantiated at the initial state
and the `horror_stories` channel. -/
theorem C3_published_counter_witness :
    (pendingOfChannel "horror_stories" initialAppState.pendingPreviews).length < 3 := by
  have h := C3_published_counter_exceeds_items initialAppState Reachable.base
    { id := "horror_stories", name := "قصص الرعب", platform := "TikTok",
      status := "active", followers := 15420, todayViews := 8750,
      revenueCents := 24550, contentGenerated := 12, publishedToday := 3 }
    (by decide)
  exact h

/-- C4: for an id present in a duplicate-free pending list,
`approveContent` removes exactly the item with that id — the list splits
as `l₁ ++ item :: l₂` with `item.id = id` and the result is `l₁ ++ l₂`,
so every other item survives in its original relative order — and the
channels, stats and run flag are untouched. -/
theorem C4_approve_removes_exactly (id : String) (s : AppState)
    (hp : s.pendingPreviews.Pairwise (fun x y => x.id ≠ y.id))
    (hmem : id ∈ s.pendingPreviews.map (fun x => x.id)) :
    (∃ l₁ item l₂, s.pendingPreviews = l₁ ++ item :: l₂ ∧ item.id = id ∧
        (approveContent id s).1.pendingPreviews = l₁ ++ l₂) ∧
    (approveContent id s).1.channels = s.channels ∧
    (approveContent id s).1.systemStats = s.systemStats ∧
    (approveContent id s).1.isSystemRunning = s.isSystemRunning := by
  refine ⟨?_, rfl, rfl, rfl⟩
  rcases filter_out_unique_id id s.pendingPreviews hp hmem with ⟨l₁, item, l₂, h1, h2, h3⟩
  exact ⟨l₁, item, l₂, h1, h2, h3⟩

/-- C4 (witness): approving the middle pending item `preview_2` of the
initial state removes exactly it and frames everything else. -/
theorem C4_approve_removes_exactly_witness :
    (∃ l₁ item l₂, initialAppState.pendingPreviews = l₁ ++ item :: l₂ ∧
        item.id = "preview_2" ∧
        (approveContent "preview_2" initialAppState).1.pendingPreviews = l₁ ++ l₂) ∧
    (approveContent "preview_2" initialAppState).1.channels = initialAppState.channels ∧
    (approveContent "preview_2" initialAppState).1.systemStats = initialAppState.systemStats ∧
    (approveContent "preview_2" initialAppState).1.isSystemRunning =
      initialAppState.isSystemRunning :=
  C4_approve_removes_exactly "preview_2" initialAppState (by decide) (by decide)

/-- C5 (counterexample): `toggleSystem` on the initial state returns
`none` (the handler body has no `return` statement), not the new
`RunState`: its return slot differs from `some` of the new run flag. -/
theorem C5_counterexample :
    (toggleSystem initialAppState).2 = none ∧
    (toggleSystem initialAppState).2 ≠
      some (toggleSystem initialAppState).1.isSystemRunning := by
  decide

/-- C5 (amended): `toggleSystem` flips the run flag to its opposite
(Running becomes Paused and vice versa, flipping twice restores it) and
leaves every other state cell unchanged, but returns no value to the
caller (`undefined`, embedded as `none`) rather than the new RunState. -/
theorem C5_toggle_flips_without_returning (s : AppState) :
    (toggleSystem s).1.isSystemRunning = !s.isSystemRunning ∧
    (toggleSystem s).1.pendingPreviews = s.pendingPreviews ∧
    (toggleSystem s).1.channels = s.channels ∧
    (toggleSystem s).1.systemStats = s.systemStats ∧
    (toggleSystem s).2 = none ∧
    (toggleSystem (toggleSystem s).1).1.isSystemRunning = s.isSystemRunning := by
  refine ⟨rfl, rfl, rfl, rfl, rfl, ?_⟩
  simp [toggleSystem]

/-- C6: in every reachable quiescent state the pending list is sorted in
the required display order — strictly ascending scheduled-publish time,
with equal times broken by identifier (vacuously here: the loaded times
are pairwise distinct, and filters only ever remove elements, so no tie
can arise; the source items carry no generation timestamp, leaving that
intermediate tie-break with nothing to distinguish). -/
theorem C6_pending_sorted (s : AppState) (h : Reachable s) :
    s.pendingPreviews.Pairwise (fun a b => previewBefore a b = true) := by
  have hsub := (reachable_invariant h).2.2
  have hbase : loadedPendingPreviews.Pairwise (fun a b => previewBefore a b = true) := by
    decide
  exact List.Pairwise.sublist hsub hbase

/-- C6 (witness): the ordering property instantiated at the initial
state. -/
theorem C6_pending_sorted_witness :
    initialAppState.pendingPreviews.Pairwise (fun a b => previewBefore a b = true) :=
  C6_pending_sorted initialAppState Reachable.base

/-- C7: in every reachable quiescent state, every pending content item's
`channelId` resolves to an existing channel in the channel registry —
the initial items reference existing channels, channels are never
removed, and items are never added. -/
theorem C7_referential_integrity (s : AppState) (h : Reachable s)
    (item : Preview) (hitem : item ∈ s.pendingPreviews) :
    s.channels.any (fun c => c.id == item.channelId) = true := by
  obtain ⟨hch, _, hsub⟩ := reachable_invariant h
  rw [hch]
  have hmem : item ∈ loadedPendingPreviews := hsub.subset hitem
  have hall : ∀ p ∈ loadedPendingPreviews,
      initialChannels.any (fun c => c.id == p.channelId) = true := by decide
  exact hall item hmem

/-- C7 (witness): referential integrity instantiated at the initial
state and the first pending item. -/
theorem C7_referential_integrity_witness :
    initialAppState.channels.any (fun c => c.id == "horror_stories") = true := by
  have h := C7_referential_integrity initialAppState Reachable.base
    { id := "preview_1", channelId := "horror_stories",
      title := "قصة الدمية المسكونة",
      content := "في منزل قديم بالريف، وجدت سارة دمية قديمة في العلية...",
      scheduledTime := "22:00", timeLeft := "45 دقيقة", mediaType := "video" }
    (by decide)
  exact h

/-- C8: the gate classifies each boundary inclusively on one side only:
one minute before 22:00 the review window is open and the publish
boundary not yet passed; at the exact instant 22:00 (minute 1320) the
window is closed (end exclusive) and the boundary passed (inclusive);
and no instant whatsoever is classified as both inside the review window
and past the publish boundary. -/
theorem C8_gate_boundaries :
    isReviewOpen 1319 = true ∧ isReviewOpen 1320 = false ∧
    isPastPublishBoundary 1319 = false ∧ isPastPublishBoundary 1320 = true ∧
    ∀ t : Nat, (isReviewOpen t && isPastPublishBoundary t) = false := by
  refine ⟨by decide, by decide, by decide, by decide, fun t => ?_⟩
  cases hA : isReviewOpen t with
  | false => simp
  | true =>
    cases hB : isPastPublishBoundary t with
    | false => simp
    | true =>
      exfalso
      simp only [isReviewOpen, decide_eq_true_eq] at hA
      simp only [isPastPublishBoundary, decide_eq_true_eq] at hB
      omega

/-- C9: `approveContent` and `rejectContent` are extensionally identical
operations — on every id and every state they produce the same new state
and the same return value (the source bodies perform the same filter and
differ only in logged text). -/
theorem C9_approve_reject_equal (id : String) (s : AppState) :
    approveContent id s = rejectContent id s := rfl

/-- C10: for an id matching no pending item (in particular an id already
removed by a prior call), both `approveContent` and `rejectContent`
leave the whole state exactly unchanged and signal no error, so
repeating either call is a no-op. -/
theorem C10_idempotent_on_absent (id : String) (s : AppState)
    (h : ∀ item ∈ s.pendingPreviews, item.id ≠ id) :
    approveContent id s = (s, none) ∧ rejectContent id s = (s, none) := by
  have hfil : s.pendingPreviews.filter (fun item => item.id != id) = s.pendingPreviews :=
    List.filter_eq_self.mpr fun item hi => by
      simp only [bne_iff_ne, ne_eq]
      exact h item hi
  constructor
  · unfold approveContent
    rw [hfil]
  · unfold rejectContent
    rw [hfil]

/-- C10 (witness): an id absent from the initial pending list leaves the
state untouched under both operations. -/
theorem C10_idempotent_on_absent_witness :
    approveContent "preview_9" initialAppState = (initialAppState, none) ∧
    rejectContent "preview_9" initialAppState = (initialAppState, none) :=
  C10_idempotent_on_absent "preview_9" initialAppState (by decide)
